import Mathlib

/-!
Verification development for the SlyYTDAPI client library
(`src/SlyYTDAPI/ytdapi.py`).

The development shallowly embeds the entity mappers (Comment, Video,
Channel, Playlist), the query builders (channel list, video list, search,
playlist items, comment threads) and the pagination layer, and proves the
specification's testable properties against them.

Raw API payloads are modelled by the `Json` inductive.  Python `dict.get`
returns `None` for a missing key; the payloads handled by this library never
contain a JSON `null`, so the `Json.null` constructor is used to model the
Python `None` produced by `dict.get`.  Fallible Python code (KeyError,
TypeError, AttributeError, ValueError) is modelled in the `Except String`
monad.
-/

inductive Json where
  | null : Json
  | bool : Bool → Json
  | num : Int → Json
  | str : String → Json
  | arr : List Json → Json
  | obj : List (String × Json) → Json
deriving Repr

/-- First-match association-list lookup; Python dict keys are unique, so the
first match is the only match. -/
def assocGet : List (String × Json) → String → Option Json
  | [], _ => none
  | (k, v) :: t, key => if k = key then some v else assocGet t key

/-- Python `d[k]`: KeyError when the key is missing, TypeError when the
receiver is not a dict. -/
def Json.getItem : Json → String → Except String Json
  | .obj l, k =>
    match assocGet l k with
    | some v => .ok v
    | none => .error ("KeyError: " ++ k)
  | _, k => .error ("TypeError: not subscriptable: " ++ k)

/-- Python `d.get(k)`: `None` (modelled as `Json.null`) when the key is
missing, AttributeError when the receiver is not a dict. -/
def Json.pyGet : Json → String → Except String Json
  | .obj l, k => .ok ((assocGet l k).getD .null)
  | _, k => .error ("AttributeError: get " ++ k)

/-- Python `d.get(k, default)`. -/
def Json.pyGetD : Json → String → Json → Except String Json
  | .obj l, k, d => .ok ((assocGet l k).getD d)
  | _, k, _ => .error ("AttributeError: get " ++ k)

/-- Python truthiness of a raw value (`None`, `0`, `""`, `[]` and `{}` are
falsy). -/
def Json.truthy : Json → Bool
  | .null => false
  | .bool b => b
  | .num n => n != 0
  | .str s => s != ""
  | .arr l => !l.isEmpty
  | .obj l => !l.isEmpty

/-- Python `d.values()` (AttributeError when the receiver is not a dict). -/
def objValues : Json → Except String (List Json)
  | .obj l => .ok (l.map Prod.snd)
  | _ => .error "AttributeError: values"

/-- A value that must be a Python `str` (TypeError otherwise, as raised by
`re.match` and `strptime` on non-string input). -/
def pyStr : Json → Except String String
  | .str s => .ok s
  | _ => .error "TypeError: expected str"

/-- Python `int(x)` on the payload values that carry counters: accepts an
integer or a decimal string. -/
def pyInt : Json → Except String Int
  | .num n => .ok n
  | .str s =>
    match s.toInt? with
    | some i => .ok i
    | none => .error ("ValueError: invalid literal for int: " ++ s)
  | .bool b => .ok (if b then 1 else 0)
  | _ => .error "TypeError: int argument"

/-- Python `x == 'live'` on a raw value: true exactly when the value is that
string. -/
def jsonEqStr : Json → String → Bool
  | .str s, t => s == t
  | _, _ => false

/-- Left-to-right effectful map, mirroring a Python list comprehension:
the first failure aborts. -/
def exMapM (f : α → Except String β) : List α → Except String (List β)
  | [] => .ok []
  | a :: t => do
    let b ← f a
    let bs ← exMapM f t
    pure (b :: bs)

/-!
### Datetimes

`datetime` values are modelled by `PyDateTime`; the timezone, when present,
is the UTC offset in minutes.  `yt_date` models the source's two-format
`datetime.strptime` fallback; `PyDateTime.isoformat` models
`datetime.isoformat(sep)` (offset seconds are not modelled: the offsets the
API and callers use are whole minutes).
-/

structure PyDateTime where
  year : Nat
  month : Nat
  day : Nat
  hour : Nat
  minute : Nat
  second : Nat
  microsecond : Nat := 0
  tz : Option Int := none
deriving Repr, DecidableEq

def digitsToNat (cs : List Char) : Nat :=
  cs.foldl (fun a c => a * 10 + (c.toNat - 48)) 0

def isLeap (y : Nat) : Bool :=
  (y % 4 = 0 && y % 100 != 0) || y % 400 = 0

def daysInMonth (y m : Nat) : Nat :=
  if m = 2 then (if isLeap y then 29 else 28)
  else if m = 4 || m = 6 || m = 9 || m = 11 then 30
  else 31

/-- One literal character of a strptime format. -/
def litCh (c : Char) (cs : List Char) (k : List Char → Option PyDateTime) :
    Option PyDateTime :=
  match cs with
  | a :: rest => if a = c then k rest else none
  | [] => none

/-- A one-or-two-digit numeric strptime field (`%m`, `%d`, `%H`, `%M`, `%S`):
greedily two digits, backtracking to one, values filtered by `check` as the
CPython field patterns do. -/
def num2 (check : Nat → Bool) (cs : List Char)
    (k : Nat → List Char → Option PyDateTime) : Option PyDateTime :=
  (match cs with
   | a :: b :: rest =>
     if a.isDigit && b.isDigit && check (digitsToNat [a, b]) then
       k (digitsToNat [a, b]) rest
     else none
   | _ => none)
  <|>
  (match cs with
   | a :: rest =>
     if a.isDigit && check (digitsToNat [a]) then k (digitsToNat [a]) rest
     else none
   | _ => none)

/-- The four-digit `%Y` field. -/
def num4 (cs : List Char) (k : Nat → List Char → Option PyDateTime) :
    Option PyDateTime :=
  match cs with
  | a :: b :: c :: d :: rest =>
    if a.isDigit && b.isDigit && c.isDigit && d.isDigit then
      k (digitsToNat [a, b, c, d]) rest
    else none
  | _ => none

/-- The `%f` field: one to six digits, taken greedily, scaled to
microseconds by padding on the right. -/
def fracField (cs : List Char) (k : Nat → List Char → Option PyDateTime) :
    Option PyDateTime :=
  let ds := (cs.takeWhile Char.isDigit).take 6
  if ds.isEmpty then none
  else k (digitsToNat ds * 10 ^ (6 - ds.length)) (cs.drop ds.length)

/-- Shared tail of both accepted formats: validate the day against the
month (as the `datetime` constructor does) and require the input to be
fully consumed. -/
def finishDate (y mo dy hr mi sec us : Nat) (rest : List Char) :
    Option PyDateTime :=
  if rest.isEmpty && dy ≤ daysInMonth y mo then
    some { year := y, month := mo, day := dy, hour := hr, minute := mi,
           second := sec, microsecond := us }
  else none

/-- `strptime(s, '%Y-%m-%dT%H:%M:%S.%fZ')`. -/
def parseDateFrac (cs : List Char) : Option PyDateTime :=
  num4 cs fun y r1 => litCh '-' r1 fun r2 =>
  num2 (fun m => 1 ≤ m && m ≤ 12) r2 fun mo r3 => litCh '-' r3 fun r4 =>
  num2 (fun d => 1 ≤ d && d ≤ 31) r4 fun dy r5 => litCh 'T' r5 fun r6 =>
  num2 (fun h => h ≤ 23) r6 fun hr r7 => litCh ':' r7 fun r8 =>
  num2 (fun x => x ≤ 59) r8 fun mi r9 => litCh ':' r9 fun r10 =>
  num2 (fun x => x ≤ 59) r10 fun sec r11 => litCh '.' r11 fun r12 =>
  fracField r12 fun us r13 => litCh 'Z' r13 fun r14 =>
  finishDate y mo dy hr mi sec us r14

/-- `strptime(s, '%Y-%m-%dT%H:%M:%SZ')`. -/
def parseDateNoFrac (cs : List Char) : Option PyDateTime :=
  num4 cs fun y r1 => litCh '-' r1 fun r2 =>
  num2 (fun m => 1 ≤ m && m ≤ 12) r2 fun mo r3 => litCh '-' r3 fun r4 =>
  num2 (fun d => 1 ≤ d && d ≤ 31) r4 fun dy r5 => litCh 'T' r5 fun r6 =>
  num2 (fun h => h ≤ 23) r6 fun hr r7 => litCh ':' r7 fun r8 =>
  num2 (fun x => x ≤ 59) r8 fun mi r9 => litCh ':' r9 fun r10 =>
  num2 (fun x => x ≤ 59) r10 fun sec r11 => litCh 'Z' r11 fun r12 =>
  finishDate y mo dy hr mi sec 0 r12

/-- `yt_date` (ytdapi.py lines 50-54): try the fractional-seconds format,
fall back to the whole-seconds format, raise ValueError otherwise. -/
def yt_date (s : String) : Except String PyDateTime :=
  match parseDateFrac s.toList with
  | some d => .ok d
  | none =>
    match parseDateNoFrac s.toList with
    | some d => .ok d
    | none => .error ("ValueError: time data does not match format: " ++ s)

/-- Zero-pad a numeral to the given width, as Python %0Nd formatting does. -/
def padZeros (w n : Nat) : String :=
  let s := toString n
  String.mk (List.replicate (w - s.length) '0') ++ s

/-- `datetime.isoformat(sep)`: fractional seconds printed exactly when the
microsecond field is nonzero, UTC offset appended exactly when the value is
timezone-aware. -/
def PyDateTime.isoformat (d : PyDateTime) (sep : String := "T") : String :=
  padZeros 4 d.year ++ "-" ++ padZeros 2 d.month ++ "-" ++ padZeros 2 d.day
  ++ sep ++ padZeros 2 d.hour ++ ":" ++ padZeros 2 d.minute ++ ":"
  ++ padZeros 2 d.second
  ++ (if d.microsecond = 0 then "" else "." ++ padZeros 6 d.microsecond)
  ++ (match d.tz with
      | none => ""
      | some off =>
        (if 0 ≤ off then "+" else "-")
        ++ padZeros 2 (off.natAbs / 60) ++ ":" ++ padZeros 2 (off.natAbs % 60))

/-!
### Durations

`ISO8601_PERIOD = re.compile(r'P(\d+)?T(?:(\d{1,2})H)?(?:(\d{1,2})M)?(\d{1,2})S')`
(ytdapi.py line 48), used with `re.match`, i.e. anchored at the start only.
The matcher below reproduces the regex's greedy matching with backtracking:
each optional group tries two digits plus its marker, then one digit plus
its marker, then matches nothing; the final seconds group is mandatory.
Trailing input after the match is ignored, as `re.match` ignores it.
-/

abbrev PeriodGroups := Nat × Nat × Nat × Nat

/-- The regex fragment `(?:(\d{1,2})X)?` for marker X, in continuation style
so that `<|>` realizes the engine's backtracking; an unmatched group yields
0, matching `int(g) if g else 0` in the caller. -/
def optNumGroup (marker : Char) (cs : List Char)
    (k : Nat → List Char → Option PeriodGroups) : Option PeriodGroups :=
  (match cs with
   | a :: b :: m :: rest =>
     if a.isDigit && b.isDigit && m = marker then k (digitsToNat [a, b]) rest
     else none
   | _ => none)
  <|>
  (match cs with
   | a :: m :: rest =>
     if a.isDigit && m = marker then k (digitsToNat [a]) rest else none
   | _ => none)
  <|> k 0 cs

/-- The mandatory `(\d{1,2})S` seconds group. -/
def secondsGroup (cs : List Char)
    (k : Nat → List Char → Option PeriodGroups) : Option PeriodGroups :=
  (match cs with
   | a :: b :: m :: rest =>
     if a.isDigit && b.isDigit && m = 'S' then k (digitsToNat [a, b]) rest
     else none
   | _ => none)
  <|>
  (match cs with
   | a :: m :: rest =>
     if a.isDigit && m = 'S' then k (digitsToNat [a]) rest else none
   | _ => none)

/-- The regex fragment `P(\d+)?T`.  `\d+` is greedy; giving back digits
cannot help, since the character after a shorter digit run is a digit, not
`T`, so only the full run and the empty alternative are tried. -/
def daysThenT (cs : List Char)
    (k : Nat → List Char → Option PeriodGroups) : Option PeriodGroups :=
  let ds := cs.takeWhile Char.isDigit
  (match cs.dropWhile Char.isDigit with
   | 'T' :: rest => if ds.isEmpty then none else k (digitsToNat ds) rest
   | _ => none)
  <|>
  (match cs with
   | 'T' :: rest => k 0 rest
   | _ => none)

/-- `ISO8601_PERIOD.match(s)`, returning the four captured groups with
unmatched groups read as 0. -/
def iso8601_period_match (s : String) : Option PeriodGroups :=
  match s.toList with
  | 'P' :: rest =>
    daysThenT rest fun d cs1 =>
    optNumGroup 'H' cs1 fun h cs2 =>
    optNumGroup 'M' cs2 fun m cs3 =>
    secondsGroup cs3 fun sec _ => some (d, h, m, sec)
  | _ => none

/-- Duration handling in `Video.__init__` (ytdapi.py lines 225-230): match
the period regex and total up seconds, or raise ValueError. -/
def parseDuration (s : String) : Except String Nat :=
  match iso8601_period_match s with
  | some (d, h, m, sec) =>
    .ok (d * 24 * 60 * 60 + h * 60 * 60 + m * 60 + sec)
  | none => .error ("Unknown duration format: " ++ s)

/-!
### Comments

`Comment.__init__` (ytdapi.py lines 81-93).  An instance attribute that the
constructor may leave unassigned is modelled as an `Option` field whose
`none` value means the attribute is absent from the instance, so that
reading it raises AttributeError (`readAttr`); the constructor only ever
assigns real values (never a `None` sentinel) to these attributes.
-/

structure Comment where
  id : Json
  author_display_name : Option Json
  author_channel_id : Option Json
  body : Option Json
  created_at : Option PyDateTime
  replies : Option (List Comment)
deriving Repr

/-- Reading an instance attribute that has no class-level default: raises
AttributeError when the constructor never assigned it. -/
def readAttr : Option α → Except String α
  | none => .error "AttributeError"
  | some a => .ok a

/-- Python iteration over a raw value: only arrays are iterated here (the
payload shapes the code consumes); anything else fails. -/
def asList : Json → Except String (List Json)
  | .arr l => .ok l
  | _ => .error "TypeError: not iterable"

/-- Lines 82-84 of `Comment.__init__`: detect the thread-wrapper shape
(`source.get('snippet', {}).get('topLevelComment')` truthy) and, when
present, extract the top-level comment together with the raw replies list
`source.get('replies', {}).get('comments', [])`. -/
def threadParts (source : Json) : Except String (Option (Json × List Json)) :=
  match source.pyGetD "snippet" (.obj []) with
  | .error e => .error e
  | .ok snippetD =>
    match snippetD.pyGet "topLevelComment" with
    | .error e => .error e
    | .ok tlc =>
      if tlc.truthy then
        match source.pyGetD "replies" (.obj []) with
        | .error e => .error e
        | .ok repliesD =>
          match repliesD.pyGetD "comments" (.arr []) with
          | .error e => .error e
          | .ok commentsV =>
            match asList commentsV with
            | .error e => .error e
            | .ok rl => .ok (some (tlc, rl))
      else .ok none

/-- Lines 88-93 of `Comment.__init__`: the fields read from `source` after
the optional unwrapping, with `replies` left untouched (unassigned). -/
def commentCore (source : Json) : Except String Comment := do
  let idv ← source.getItem "id"
  let sn ← source.pyGet "snippet"
  if sn.truthy then do
    let adn ← sn.getItem "authorDisplayName"
    let aci0 ← sn.getItem "authorChannelId"
    let aci ← aci0.getItem "value"
    let bodyv ← sn.getItem "textDisplay"
    let pubv ← sn.getItem "publishedAt"
    let pubs ← pyStr pubv
    let dt ← yt_date pubs
    pure { id := idv, author_display_name := some adn,
           author_channel_id := some aci, body := some bodyv,
           created_at := some dt, replies := none }
  else
    pure { id := idv, author_display_name := none, author_channel_id := none,
           body := none, created_at := none, replies := none }

theorem assocGet_sizeOf {l : List (String × Json)} {k : String} {v : Json}
    (h : assocGet l k = some v) : sizeOf v < sizeOf (Json.obj l) := by
  induction l with
  | nil => simp [assocGet] at h
  | cons p t ih =>
    obtain ⟨pk, pv⟩ := p
    by_cases hk : pk = k
    · simp [assocGet, hk] at h
      subst h
      simp
      omega
    · simp [assocGet, hk] at h
      have := ih h
      simp at this ⊢
      omega

theorem pyGetD_sizeOf {j d v : Json} {k : String}
    (h : Json.pyGetD j k d = .ok v) : v = d ∨ sizeOf v < sizeOf j := by
  cases j <;> simp [Json.pyGetD] at h
  case obj l =>
    cases ha : assocGet l k with
    | none => simp [ha] at h; exact Or.inl h.symm
    | some w =>
      simp [ha] at h
      subst h
      exact Or.inr (assocGet_sizeOf ha)

theorem threadParts_sizeOf {source tlc : Json} {rl : List Json}
    (h : threadParts source = .ok (some (tlc, rl))) :
    sizeOf rl < sizeOf source := by
  unfold threadParts at h
  split at h
  · exact absurd h (by simp)
  case _ snippetD h1 =>
    split at h
    · exact absurd h (by simp)
    case _ tlcV h2 =>
      split at h
      case isTrue ht =>
        split at h
        · exact absurd h (by simp)
        case _ repliesD h3 =>
          split at h
          · exact absurd h (by simp)
          case _ commentsV h4 =>
            split at h
            · exact absurd h (by simp)
            case _ rl0 h5 =>
              cases commentsV <;> simp [asList] at h5
              case arr l =>
                obtain ⟨rfl⟩ := h5
                simp at h
                obtain ⟨-, rfl⟩ := h
                have hsrc : 2 ≤ sizeOf source := by
                  cases source <;> simp [Json.pyGetD] at h1
                  case obj l =>
                    cases l
                    · simp
                    · simp
                      omega
                rcases pyGetD_sizeOf h4 with h4' | h4'
                · injection h4' with hnil
                  subst hnil
                  simp
                  omega
                · rcases pyGetD_sizeOf h3 with h3' | h3'
                  · subst h3'
                    simp at h4' ⊢
                    omega
                  · simp at h4' ⊢
                    omega
      case isFalse => exact absurd h (by simp)

mutual

/-- `Comment.__init__` (ytdapi.py lines 81-93): when the thread-wrapper
shape is present, map each raw reply with the same constructor
(`[Comment(r) for r in replies]`), then read the comment's own fields from
the nested top-level comment; otherwise read them from the source itself,
leaving `replies` unassigned. -/
def mkComment (source : Json) : Except String Comment :=
  match h : threadParts source with
  | .error e => .error e
  | .ok none => commentCore source
  | .ok (some p) =>
    (mkComments p.2).bind fun rs =>
      (commentCore p.1).bind fun core =>
        .ok { core with replies := some rs }
termination_by sizeOf source
decreasing_by
  have := threadParts_sizeOf h
  simpa using this

/-- The reply list comprehension of `Comment.__init__`: left-to-right,
first failure aborts. -/
def mkComments (l : List Json) : Except String (List Comment) :=
  match l with
  | [] => .ok []
  | r :: t =>
    (mkComment r).bind fun c =>
      (mkComments t).bind fun cs =>
        .ok (c :: cs)
termination_by sizeOf l
decreasing_by
  all_goals simp
  all_goals omega

end

theorem mkComment_plain {source : Json} (h : threadParts source = .ok none) :
    mkComment source = commentCore source := by
  rw [mkComment.eq_def]
  split
  case _ e he => rw [he] at h; cases h
  case _ he => rfl
  case _ p he => rw [he] at h; cases h

theorem mkComment_thread {source tlc : Json} {rl : List Json}
    (h : threadParts source = .ok (some (tlc, rl))) :
    mkComment source =
      (mkComments rl).bind fun rs =>
        (commentCore tlc).bind fun core =>
          .ok { core with replies := some rs } := by
  rw [mkComment.eq_def]
  split
  case _ e he => rw [he] at h; cases h
  case _ he => rw [he] at h; cases h
  case _ p he =>
    rw [he] at h
    cases h
    rfl

theorem mkComments_nil : mkComments [] = .ok [] := by
  rw [mkComments.eq_def]

theorem mkComments_cons {r : Json} {t : List Json} :
    mkComments (r :: t) =
      (mkComment r).bind fun c =>
        (mkComments t).bind fun cs =>
          .ok (c :: cs) := by
  rw [mkComments.eq_def]

/-- Decompose a successful `Except.bind`. -/
theorem bindOk {α β : Type} {x : Except String α} {f : α → Except String β}
    {b : β} (h : x.bind f = .ok b) : ∃ a, x = .ok a ∧ f a = .ok b := by
  cases x with
  | error e => simp [Except.bind] at h
  | ok a => exact ⟨a, rfl, by simpa [Except.bind] using h⟩

theorem mkComments_length {l : List Json} {cs : List Comment}
    (h : mkComments l = .ok cs) : cs.length = l.length := by
  induction l generalizing cs with
  | nil => rw [mkComments_nil] at h; cases h; rfl
  | cons r t ih =>
    rw [mkComments_cons] at h
    obtain ⟨c, hc, h⟩ := bindOk h
    obtain ⟨cs', hcs, h⟩ := bindOk h
    cases h
    simp [ih hcs]

theorem mkComments_zip {l : List Json} {cs : List Comment}
    (h : mkComments l = .ok cs) :
    ∀ p ∈ l.zip cs, mkComment p.1 = .ok p.2 := by
  induction l generalizing cs with
  | nil => rw [mkComments_nil] at h; cases h; simp
  | cons r t ih =>
    rw [mkComments_cons] at h
    obtain ⟨c, hc, h⟩ := bindOk h
    obtain ⟨cs', hcs, h⟩ := bindOk h
    cases h
    intro p hp
    simp only [List.zip_cons_cons, List.mem_cons] at hp
    rcases hp with rfl | hp
    · exact hc
    · exact ih hcs p hp

/-!
### Videos

`Video.__init__` (ytdapi.py lines 200-291), organised section by section as
the source is.  Fields that the constructor may leave unassigned are
`Option`-valued with `none` meaning "not assigned"; for the fields that have
a class-level default of `None` (ytdapi.py lines 110-141) `none` is also
what a reader observes, so the conflation is harmless.  The constructor
stores the status section's uploadStatus/failureReason/rejectionReason
under camel-case attribute names (lines 244-246) that are distinct from the
snake-case class attributes (lines 126-128); both families appear below.
-/

structure Video where
  id : Json
  title : Option Json := none
  description : Option Json := none
  published_at : Option PyDateTime := none
  channel_id : Option Json := none
  channel_name : Option Json := none
  tags : Option Json := none
  is_livestream : Option Bool := none
  default_audio_language : Option Json := none
  thumbnails : Option (List Json) := none
  localized_title : Option Json := none
  localized_description : Option Json := none
  duration : Option Nat := none
  is_licensed : Option Json := none
  blocked_in : Option Json := none
  allowed_in : Option Json := none
  dimension : Option Json := none
  definition : Option Json := none
  caption : Option Json := none
  projection : Option Json := none
  privacy : Option Json := none
  upload_status : Option Json := none
  failure_reason : Option Json := none
  rejection_reason : Option Json := none
  license : Option Json := none
  is_embeddable : Option Json := none
  has_viewable_stats : Option Json := none
  is_made_for_kids : Option Json := none
  self_declared_made_for_kids : Option Json := none
  uploadStatus : Option Json := none
  failureReason : Option Json := none
  rejectionReason : Option Json := none
  view_count : Option Int := none
  like_count : Option Int := none
  favourite_count : Option Int := none
  comment_count : Option Int := none
  livestream_details : Option Json := none
  topic_categories : Option Json := none
  localizations : Option Json := none
  recording_date : Option Json := none
  file_name : Option Json := none
  file_size : Option Json := none
  file_type : Option Json := none
  container : Option Json := none
  durationMs : Option Json := none
  bitrateBps : Option Json := none
  creationTime : Option Json := none
  processing_errors : Option Json := none
  processing_warnings : Option Json := none
  processing_hints : Option Json := none
  tag_suggestions : Option Json := none
  editor_suggestions : Option Json := none
  processing_status : Option Json := none
  processing_progress : Option Json := none
deriving Repr

/-- Lines 202-208 of `Video.__init__`: the id is the raw value when it is a
string, the nested `['videoId']` when it is a dict (search-result shape),
and a ValueError for anything else. -/
def videoIdOf (source : Json) : Except String Json := do
  let idv ← source.getItem "id"
  match idv with
  | .str _ => pure idv
  | .obj _ => idv.getItem "videoId"
  | _ => .error "Video expects source id to be a string or dict"

structure SnippetData where
  title : Json
  description : Json
  publishedAt : PyDateTime
  channelId : Json
  channelTitle : Json
  tags : Json
  liveBroadcastContent : Json
  defaultAudioLanguage : Json
  thumbnails : List Json
  localizedTitle : Json
  localizedDescription : Json
deriving Repr

/-- The field reads of the snippet section (lines 211-222), in source
order. -/
def snippetFields (sn : Json) : Except String SnippetData := do
  let t ← sn.getItem "title"
  let de ← sn.getItem "description"
  let pubv ← sn.getItem "publishedAt"
  let pub ← yt_date (← pyStr pubv)
  let ci ← sn.getItem "channelId"
  let cn ← sn.getItem "channelTitle"
  let tg ← sn.pyGetD "tags" (.arr [])
  let lbc ← sn.pyGet "liveBroadcastContent"
  let dal ← sn.pyGet "defaultAudioLanguage"
  let thObj ← sn.pyGetD "thumbnails" (.obj [])
  let thVals ← objValues thObj
  let th ← exMapM (fun x => x.pyGet "url") thVals
  let loc ← sn.pyGetD "localized" (.obj [])
  let lt ← loc.pyGet "title"
  let ld ← loc.pyGet "description"
  pure { title := t
         description := de
         publishedAt := pub
         channelId := ci
         channelTitle := cn
         tags := tg
         liveBroadcastContent := lbc
         defaultAudioLanguage := dal
         thumbnails := th
         localizedTitle := lt
         localizedDescription := ld }

def applySnippet (v : Video) (source : Json) : Except String Video := do
  let sn ← source.pyGet "snippet"
  if sn.truthy then do
    let d ← snippetFields sn
    pure { v with
           title := some d.title
           description := some d.description
           published_at := some d.publishedAt
           channel_id := some d.channelId
           channel_name := some d.channelTitle
           tags := some d.tags
           is_livestream := some (jsonEqStr d.liveBroadcastContent "live")
           default_audio_language := some d.defaultAudioLanguage
           thumbnails := some d.thumbnails
           localized_title := some d.localizedTitle
           localized_description := some d.localizedDescription }
  else pure v

structure ContentDetailsData where
  durationSeconds : Nat
  licensedContent : Json
  blocked : Json
  allowed : Json
  dimension : Json
  definition : Json
  caption : Json
  projection : Json
deriving Repr

/-- The contentDetails section (lines 224-238): the duration string must
match the period regex or a ValueError is raised. -/
def contentDetailsFields (cd : Json) : Except String ContentDetailsData := do
  let durv ← cd.getItem "duration"
  let durs ← pyStr durv
  let secs ← parseDuration durs
  let lic ← cd.pyGet "licensedContent"
  let rr1 ← cd.pyGetD "regionRestriction" (.obj [])
  let blk ← rr1.pyGet "blocked"
  let rr2 ← cd.pyGetD "regionRestriction" (.obj [])
  let alw ← rr2.pyGet "allowed"
  let dim ← cd.pyGet "dimension"
  let dfn ← cd.pyGet "definition"
  let cap ← cd.pyGet "caption"
  let prj ← cd.pyGet "projection"
  pure { durationSeconds := secs
         licensedContent := lic
         blocked := blk
         allowed := alw
         dimension := dim
         definition := dfn
         caption := cap
         projection := prj }

def applyContentDetails (v : Video) (source : Json) : Except String Video := do
  let cd ← source.pyGet "contentDetails"
  if cd.truthy then do
    let d ← contentDetailsFields cd
    pure { v with
           duration := some d.durationSeconds
           is_licensed := some d.licensedContent
           blocked_in := some d.blocked
           allowed_in := some d.allowed
           dimension := some d.dimension
           definition := some d.definition
           caption := some d.caption
           projection := some d.projection }
  else pure v

structure StatusData where
  privacyStatus : Json
  uploadStatus : Json
  failureReason : Json
  rejectionReason : Json
  license : Json
  embeddable : Json
  publicStatsViewable : Json
  madeForKids : Json
  selfDeclaredMadeForKids : Json
deriving Repr

/-- The status section's reads (lines 242-251). -/
def statusFields (st : Json) : Except String StatusData := do
  let p ← st.pyGet "privacyStatus"
  let u ← st.pyGet "uploadStatus"
  let f ← st.pyGet "failureReason"
  let r ← st.pyGet "rejectionReason"
  let li ← st.pyGet "license"
  let em ← st.pyGet "embeddable"
  let pv ← st.pyGet "publicStatsViewable"
  let mk ← st.pyGet "madeForKids"
  let sd ← st.pyGet "selfDeclaredMadeForKids"
  pure { privacyStatus := p
         uploadStatus := u
         failureReason := f
         rejectionReason := r
         license := li
         embeddable := em
         publicStatsViewable := pv
         madeForKids := mk
         selfDeclaredMadeForKids := sd }

/-- Lines 241-251: note that the uploadStatus/failureReason/rejectionReason
values are stored under the camel-case attributes, not under the snake-case
class attributes `upload_status`, `failure_reason`, `rejection_reason`. -/
def applyStatus (v : Video) (source : Json) : Except String Video := do
  let st ← source.pyGet "status"
  if st.truthy then do
    let d ← statusFields st
    pure { v with
           privacy := some d.privacyStatus
           uploadStatus := some d.uploadStatus
           failureReason := some d.failureReason
           rejectionReason := some d.rejectionReason
           license := some d.license
           is_embeddable := some d.embeddable
           has_viewable_stats := some d.publicStatsViewable
           is_made_for_kids := some d.madeForKids
           self_declared_made_for_kids := some d.selfDeclaredMadeForKids }
  else pure v

/-- The statistics section (lines 253-257): every counter is a required
key converted with `int(...)`. -/
def statisticsFields (stt : Json) : Except String (Int × Int × Int × Int) := do
  let vc ← pyInt (← stt.getItem "viewCount")
  let lc ← pyInt (← stt.getItem "likeCount")
  let cc ← pyInt (← stt.getItem "commentCount")
  let fc ← pyInt (← stt.getItem "favouriteCount")
  pure (vc, lc, cc, fc)

def applyStatistics (v : Video) (source : Json) : Except String Video := do
  let stt ← source.pyGet "statistics"
  if stt.truthy then do
    let d ← statisticsFields stt
    pure { v with
           view_count := some d.1
           like_count := some d.2.1
           comment_count := some d.2.2.1
           favourite_count := some d.2.2.2 }
  else pure v

def applyLiveStreamingDetails (v : Video) (source : Json) :
    Except String Video := do
  let x ← source.pyGet "liveStreamingDetails"
  if x.truthy then pure { v with livestream_details := some x } else pure v

def applyTopicDetails (v : Video) (source : Json) : Except String Video := do
  let x ← source.pyGet "topicDetails"
  if x.truthy then do
    let tc ← x.pyGet "topicCategories"
    pure { v with topic_categories := some tc }
  else pure v

def applyRecordingDetails (v : Video) (source : Json) :
    Except String Video := do
  let x ← source.pyGet "recordingDetails"
  if x.truthy then do
    let rd ← x.pyGet "recordingDate"
    pure { v with recording_date := some rd }
  else pure v

def applyFileDetails (v : Video) (source : Json) : Except String Video := do
  let x ← source.pyGet "fileDetails"
  if x.truthy then do
    let fn ← x.pyGet "fileName"
    let fs ← x.pyGet "fileSize"
    let ft ← x.pyGet "fileType"
    let co ← x.pyGet "container"
    let dm ← x.pyGet "durationMs"
    let bb ← x.pyGet "bitrateBps"
    let ct ← x.pyGet "creationTime"
    pure { v with
           file_name := some fn
           file_size := some fs
           file_type := some ft
           container := some co
           durationMs := some dm
           bitrateBps := some bb
           creationTime := some ct }
  else pure v

def applySuggestions (v : Video) (source : Json) : Except String Video := do
  let x ← source.pyGet "suggestions"
  if x.truthy then do
    let pe ← x.pyGet "processingErrors"
    let pw ← x.pyGet "processingWarnings"
    let ph ← x.pyGet "processingHints"
    let ts ← x.pyGet "tagSuggestions"
    let es ← x.pyGet "editorSuggestions"
    pure { v with
           processing_errors := some pe
           processing_warnings := some pw
           processing_hints := some ph
           tag_suggestions := some ts
           editor_suggestions := some es }
  else pure v

def applyProcessingDetails (v : Video) (source : Json) :
    Except String Video := do
  let x ← source.pyGet "processingDetails"
  if x.truthy then do
    let ps ← x.pyGet "processingStatus"
    let pp ← x.pyGet "processingProgress"
    pure { v with
           processing_status := some ps
           processing_progress := some pp }
  else pure v

def applyLocalizations (v : Video) (source : Json) : Except String Video := do
  let x ← source.pyGet "localizations"
  if x.truthy then pure { v with localizations := some x } else pure v

/-- `Video.__init__`: id normalization followed by the optional sections in
source order.  The back-reference to the client carries no data and is
omitted. -/
def mkVideo (source : Json) : Except String Video := do
  let idv ← videoIdOf source
  let v1 ← applySnippet { id := idv } source
  let v2 ← applyContentDetails v1 source
  let v3 ← applyStatus v2 source
  let v4 ← applyStatistics v3 source
  let v5 ← applyLiveStreamingDetails v4 source
  let v6 ← applyTopicDetails v5 source
  let v7 ← applyRecordingDetails v6 source
  let v8 ← applyFileDetails v7 source
  let v9 ← applySuggestions v8 source
  let v10 ← applyProcessingDetails v9 source
  let v11 ← applyLocalizations v10 source
  pure v11

/-!
### Channels and playlists

`Channel.__init__` (ytdapi.py lines 346-363), `Playlist` (lines 305-314)
and `Channel.update` (lines 371-373).  `update` re-fetches the channel by
its own id and then performs `self.__dict__.update(new.__dict__)`: every
instance attribute present on the fresh object overwrites the old one,
attributes the fresh constructor left unassigned keep their old value.
-/

structure Playlist where
  id : Json
deriving Repr

structure Channel where
  id : Json
  display_name : Option Json := none
  description : Option Json := none
  created_at : Option PyDateTime := none
  profile_image_url : Option Json := none
  at_username : Option Json := none
  uploads_playlist : Option Playlist := none
  view_count : Option Int := none
  subscriber_count : Option Int := none
  video_count : Option Int := none
deriving Repr

structure ChannelSnippetData where
  title : Json
  description : Json
  publishedAt : PyDateTime
  profileImageUrl : Json
  customUrl : Json
deriving Repr

/-- The channel snippet section (lines 350-355). -/
def channelSnippetFields (sn : Json) : Except String ChannelSnippetData := do
  let t ← sn.getItem "title"
  let de ← sn.getItem "description"
  let pubv ← sn.getItem "publishedAt"
  let pub ← yt_date (← pyStr pubv)
  let th ← sn.pyGetD "thumbnails" (.obj [])
  let thd ← th.pyGetD "default" (.obj [])
  let piu ← thd.pyGet "url"
  let cu ← sn.pyGet "customUrl"
  pure { title := t
         description := de
         publishedAt := pub
         profileImageUrl := piu
         customUrl := cu }

def chApplySnippet (c : Channel) (source : Json) : Except String Channel := do
  let sn ← source.pyGet "snippet"
  if sn.truthy then do
    let d ← channelSnippetFields sn
    pure { c with
           display_name := some d.title
           description := some d.description
           created_at := some d.publishedAt
           profile_image_url := some d.profileImageUrl
           at_username := some d.customUrl }
  else pure c

/-- The contentDetails section (lines 357-358): the uploads playlist id. -/
def chApplyContentDetails (c : Channel) (source : Json) :
    Except String Channel := do
  let cd ← source.pyGet "contentDetails"
  if cd.truthy then do
    let rp ← cd.getItem "relatedPlaylists"
    let up ← rp.getItem "uploads"
    pure { c with uploads_playlist := some { id := up } }
  else pure c

/-- The statistics section (lines 360-363). -/
def chApplyStatistics (c : Channel) (source : Json) :
    Except String Channel := do
  let stats ← source.pyGet "statistics"
  if stats.truthy then do
    let vc ← pyInt (← stats.getItem "viewCount")
    let sc ← pyInt (← stats.getItem "subscriberCount")
    let nv ← pyInt (← stats.getItem "videoCount")
    pure { c with
           view_count := some vc
           subscriber_count := some sc
           video_count := some nv }
  else pure c

/-- `Channel.__init__`: `self.id = source['id']` then the optional
sections. -/
def mkChannel (source : Json) : Except String Channel := do
  let idv ← source.getItem "id"
  let c1 ← chApplySnippet { id := idv } source
  let c2 ← chApplyContentDetails c1 source
  let c3 ← chApplyStatistics c2 source
  pure c3

/-- `dict.update` semantics for one maybe-assigned attribute: the fresh
object's instance attribute wins when present. -/
def instAttr (fresh old : Option α) : Option α :=
  match fresh with
  | some v => some v
  | none => old

/-- `Channel.update` (lines 371-373) given the freshly constructed channel:
`self.__dict__.update(new.__dict__)`.  `id` is assigned by every successful
construction, so it always overwrites. -/
def Channel.update (c fresh : Channel) : Channel :=
  { id := fresh.id
    display_name := instAttr fresh.display_name c.display_name
    description := instAttr fresh.description c.description
    created_at := instAttr fresh.created_at c.created_at
    profile_image_url := instAttr fresh.profile_image_url c.profile_image_url
    at_username := instAttr fresh.at_username c.at_username
    uploads_playlist := instAttr fresh.uploads_playlist c.uploads_playlist
    view_count := instAttr fresh.view_count c.view_count
    subscriber_count := instAttr fresh.subscriber_count c.subscriber_count
    video_count := instAttr fresh.video_count c.video_count }

/-!
### Pagination

The `paginated` method lives in the SlyAPI base class `WebAPI`, which is not
part of this repository's sources; it is modelled from the spec.  The remote
result set is modelled as the cursor-chained list of pages the endpoint
would serve; the model yields items page by page and stops when the item
limit is reached (exact cap) or when no continuation cursor remains (the
page list is exhausted).
-/

/-- Modelled from the spec: `WebAPI.paginated(path, params, limit)` from the
SlyAPI dependency, absent from this repository's sources.  Given the pages
the remote serves, it yields their items in order, truncated to the limit
when one is given ("limit reached (stop before over-fetching — exact cap,
never return more items than limit)"; "no continuation cursor in the
response (end of result set)"). -/
def paginated (pages : List (List Json)) (limit : Option Nat) : List Json :=
  match limit with
  | none => pages.flatten
  | some l => pages.flatten.take l

/-- Modelled from the spec: the number of page requests `paginated` issues
when its sequence is consumed to the end — one request per page, stopping
as soon as the limit is reached or no continuation cursor remains. -/
def paginatedRequests (pages : List (List Json)) (limit : Option Nat) : Nat :=
  match pages, limit with
  | [], _ => 0
  | _ :: ps, none => 1 + paginatedRequests ps none
  | p :: ps, some l =>
    if p.length < l then 1 + paginatedRequests ps (some (l - p.length)) else 1

/-!
### Enums and query builders
-/

inductive YTPart where
  | ID | DETAILS | SNIPPET | STATUS | STATISTICS | REPLIES
  | LIVESTREAM_DETAILS | TOPIC_DETAILS | RECORDING_DETAILS | LOCALIZATIONS
deriving Repr, DecidableEq

/-- The literal tag of each part (ytdapi.py lines 14-24; the source really
maps RECORDING_DETAILS and LOCALIZATIONS to 'topicDetails'). -/
def YTPart.tag : YTPart → String
  | .ID => "id"
  | .DETAILS => "contentDetails"
  | .SNIPPET => "snippet"
  | .STATUS => "status"
  | .STATISTICS => "statistics"
  | .REPLIES => "replies"
  | .LIVESTREAM_DETAILS => "liveStreamingDetails"
  | .TOPIC_DETAILS => "topicDetails"
  | .RECORDING_DETAILS => "topicDetails"
  | .LOCALIZATIONS => "topicDetails"

inductive Order where
  | DATE | LIKES | RELEVANCE | ALPHABETICAL | VIEWS
deriving Repr, DecidableEq

def Order.tag : Order → String
  | .DATE => "date"
  | .LIKES => "rating"
  | .RELEVANCE => "relevance"
  | .ALPHABETICAL => "title"
  | .VIEWS => "viewCount"

inductive SafeSearch where
  | SAFE | MODERATE | UNSAFE
deriving Repr, DecidableEq

def SafeSearch.tag : SafeSearch → String
  | .SAFE => "strict"
  | .MODERATE => "moderate"
  | .UNSAFE => "none"

inductive CommentOrder where
  | RELEVANCE | TIME
deriving Repr, DecidableEq

def CommentOrder.tag : CommentOrder → String
  | .RELEVANCE => "relevance"
  | .TIME => "time"

/-- A set of parts serialized as one comma-joined parameter value (the
transport joins enum-tag sets; iteration order of a Python set is
unspecified, the given list order is one refinement of it). -/
def partTags (parts : List YTPart) : String :=
  ",".intercalate (parts.map YTPart.tag)

def joinComma (l : List String) : String :=
  ",".intercalate l

/-- One pagination run as a query builder produces it: endpoint path, the
parameter mapping (a `none` value is Python `None`, which the transport
omits), and the overall item limit handed to `paginated`. -/
structure PaginatedQuery where
  path : String
  params : List (String × Option String)
  limit : Option Nat
deriving Repr

def runQuery (q : PaginatedQuery) (pages : List (List Json)) : List Json :=
  paginated pages q.limit

/-- `min(50, limit) if limit else None` (a limit of 0 is falsy). -/
def min50 : Option Nat → Option Nat
  | none => none
  | some l => if l = 0 then none else some (min 50 l)

/-- `min(100, limit) if limit else None`. -/
def min100 : Option Nat → Option Nat
  | none => none
  | some l => if l = 0 then none else some (min 100 l)

/-- `YouTubeData.search_videos` (ytdapi.py lines 450-475). -/
def search_videos (query channel_id : Option String)
    (after before : Option PyDateTime) (mine : Option Bool)
    (order : Order := .RELEVANCE) (safeSearch : SafeSearch := .MODERATE)
    (parts : List YTPart := [.SNIPPET]) (limit : Option Nat := some 50) :
    PaginatedQuery :=
  { path := "/search"
    params :=
      [ ("part", some (partTags parts))
      , ("safeSearch", some safeSearch.tag)
      , ("order", some order.tag)
      , ("type", some "video")
      , ("q", query)
      , ("channelId", channel_id)
      , ("forMine", mine.map (fun b => if b then "true" else "false"))
      , ("publishedAfter", after.map (fun d => d.isoformat "T" ++ "Z"))
      , ("publishedBefore", before.map (fun d => d.isoformat "T" ++ "Z"))
      , ("maxResults", (min50 limit).map toString) ]
    limit := limit }

/-- `YouTubeData.comments` (ytdapi.py lines 477-492). -/
def comments (video_id : String) (query : Option String := none)
    (parts : List YTPart := [.SNIPPET, .REPLIES])
    (order : CommentOrder := .TIME) (limit : Option Nat := none) :
    PaginatedQuery :=
  { path := "/commentThreads"
    params :=
      [ ("part", some (partTags parts))
      , ("commentOrder", some order.tag)
      , ("searchTerms", query)
      , ("videoId", some video_id)
      , ("maxResults", (min100 limit).map toString) ]
    limit := limit }

/-- `YouTubeData.get_playlist_videos` (ytdapi.py lines 437-448). -/
def get_playlist_videos (playlist_id : String)
    (parts : List YTPart := [.SNIPPET]) (limit : Option Nat := none) :
    PaginatedQuery :=
  { path := "/playlistItems"
    params :=
      [ ("part", some (partTags parts))
      , ("playlistId", some playlist_id)
      , ("maxResults", (min50 limit).map toString) ]
    limit := limit }

/-- `YouTubeData.videos` (ytdapi.py lines 423-432): a single pagination over
`/videos` whose id parameter joins the caller's whole id list verbatim —
no deduplication and no chunking — with no item limit. -/
def videos (video_ids : List String)
    (parts : List YTPart := [.ID, .SNIPPET]) : PaginatedQuery :=
  { path := "/videos"
    params :=
      [ ("part", some (partTags parts))
      , ("id", some (joinComma video_ids)) ]
    limit := none }

/-- The id parameters of the API calls `YouTubeData.videos` issues: exactly
one call, carrying the full joined list. -/
def videosCalls (video_ids : List String) : List String :=
  [joinComma video_ids]

/-!
### The channel list query

`YouTubeData._channels_list` (ytdapi.py lines 398-421): validation first
(`if mine == bool(channel_ids): raise ValueError(...)`), then either the
deduplicate-and-chunk id path or the mine path.  Python's `list(set(ids))`
has unspecified order; `List.dedup` is one refinement of it, and only its
length, membership and freedom from duplicates are relied on below.
-/

/-- Chunking `[lst[i : i + 50] for i in range(0, len(lst), 50)]`, written
with a fuel argument so that it computes by kernel reduction. -/
def chunksOfAux (n : Nat) : Nat → List α → List (List α)
  | 0, _ => []
  | _, [] => []
  | fuel + 1, l => l.take n :: chunksOfAux n fuel (l.drop n)

def chunksOf50 (l : List α) : List (List α) :=
  chunksOfAux 50 l.length l

/-- `list(set(channel_ids or []))`. -/
def pyDedup (ids : List String) : List String :=
  ids.dedup

/-- The number of distinct ids in a list. -/
def uniqueCount (ids : List String) : Nat :=
  (pyDedup ids).length

/-- The two shapes of a validated channel list query: chunked explicit ids,
or the authenticated caller's own channel. -/
inductive ChannelsQuery where
  | byIds : List (List String) → Option Nat → ChannelsQuery
  | mineQ : Option Nat → ChannelsQuery
deriving Repr, DecidableEq

/-- Python truthiness of the `channel_ids` argument
(`bool(None) = bool([]) = False`). -/
def idsTruthy : Option (List String) → Bool
  | none => false
  | some l => !l.isEmpty

/-- `YouTubeData._channels_list` up to the point where page fetching starts:
the usage check runs before any request is constructed, so an error here
means no network call is ever attempted. -/
def channels_list (channel_ids : Option (List String)) (mine : Bool)
    (limit : Option Nat) : Except String ChannelsQuery :=
  if mine = idsTruthy channel_ids then
    .error "Must specify exactly one of channel id or mine in channel list query"
  else if idsTruthy channel_ids then
    .ok (.byIds (chunksOf50 (pyDedup (channel_ids.getD []))) limit)
  else
    .ok (.mineQ limit)

/-- The items a validated channel list query yields when consumed: the
chunked path runs one `paginated` call per 50-id chunk — passing the same
`limit` to every chunk — and concatenates (ytdapi.py lines 412-417); the
mine path is a single pagination (lines 419-421).  `chunkPages` gives the
pages the remote serves for a chunk's ids, `minePages` those for the mine
query. -/
def planItems (q : ChannelsQuery) (chunkPages : List String → List (List Json))
    (minePages : List (List Json)) : List Json :=
  match q with
  | .byIds chunks lim => (chunks.map fun c => paginated (chunkPages c) lim).flatten
  | .mineQ lim => paginated minePages lim

/-- The number of page requests a validated channel list query issues when
consumed to the end. -/
def planRequests (q : ChannelsQuery)
    (chunkPages : List String → List (List Json))
    (minePages : List (List Json)) : Nat :=
  match q with
  | .byIds chunks lim =>
    (chunks.map fun c => paginatedRequests (chunkPages c) lim).sum
  | .mineQ lim => paginatedRequests minePages lim

/-- `YouTubeData.channels` (ytdapi.py lines 392-393): the public batch
lookup, a channel list query with no limit. -/
def channels (channel_ids : List String) : Except String ChannelsQuery :=
  channels_list (some channel_ids) false none

/-- `YouTubeData.my_channel` (ytdapi.py lines 389-390). -/
def my_channel : Except String ChannelsQuery :=
  channels_list none true (some 1)

/-- C2: the code parses "PT1H2M3S" to 3723 as claimed, but its period regex
lacks the 'D' day marker, so the spec's own example "P1DT0H0M0S" raises
ValueError instead of yielding 86400 (while the non-ISO "P1T0H0M0S" does
yield 86400, confirming the first group is meant to be days). -/
theorem c2_duration_day_marker :
    parseDuration "PT1H2M3S" = .ok 3723
    ∧ parseDuration "P1DT0H0M0S" = .error "Unknown duration format: P1DT0H0M0S"
    ∧ parseDuration "P1T0H0M0S" = .ok 86400
    ∧ contentDetailsFields (.obj [("duration", .str "P1DT0H0M0S")])
        = .error "Unknown duration format: P1DT0H0M0S" :=
  ⟨rfl, rfl, rfl, rfl⟩

/-- C7: a bare string id and a dict id nested under videoId normalize to
the same id value (and the same constructed Video); any other id shape
raises. -/
theorem c7_video_id_normalization :
    (∀ s : String,
      videoIdOf (.obj [("id", .str s)]) = .ok (.str s)
      ∧ videoIdOf (.obj [("id", .obj [("videoId", .str s)])]) = .ok (.str s)
      ∧ mkVideo (.obj [("id", .str s)]) = .ok { id := .str s }
      ∧ mkVideo (.obj [("id", .obj [("videoId", .str s)])])
          = .ok { id := .str s })
    ∧ (∀ n : Int, (videoIdOf (.obj [("id", .num n)])).isOk = false)
    ∧ (∀ b : Bool, (videoIdOf (.obj [("id", .bool b)])).isOk = false)
    ∧ (videoIdOf (.obj [("id", .null)])).isOk = false
    ∧ (∀ l : List Json, (videoIdOf (.obj [("id", .arr l)])).isOk = false) :=
  ⟨fun s => ⟨rfl, rfl, rfl, rfl⟩, fun n => rfl, fun b => rfl, rfl,
   fun l => rfl⟩

def afterPlus5 : PyDateTime :=
  { year := 2021, month := 6, day := 1, hour := 12, minute := 0, second := 0,
    microsecond := 0, tz := some 300 }

def afterFrac : PyDateTime :=
  { year := 2021, month := 6, day := 1, hour := 12, minute := 0, second := 0,
    microsecond := 250000, tz := none }

/-- C5: the outgoing publishedAfter value is `isoformat() + "Z"` verbatim:
a UTC+05:00 input keeps its +05:00 offset (with a stray Z appended) instead
of being normalized to 07:00 UTC, and microseconds are kept instead of
being dropped. -/
theorem c5_published_after_not_normalized :
    List.lookup "publishedAfter"
      (search_videos none none (some afterPlus5) none none .RELEVANCE
        .MODERATE [.SNIPPET] (some 50)).params
      = some (some "2021-06-01T12:00:00+05:00Z")
    ∧ List.lookup "publishedAfter"
        (search_videos none none (some afterFrac) none none .RELEVANCE
          .MODERATE [.SNIPPET] (some 50)).params
        = some (some "2021-06-01T12:00:00.250000Z") := by
  constructor <;> rfl

/-- C4: the channel list query raises its usage error exactly when both or
neither of the id list and the mine scope are given, and the error is
raised by the validation step, before any request exists to be issued. -/
theorem c4_exactly_one_scope :
    ∀ (ids : List String) (limit : Option Nat),
      (ids ≠ [] → (channels_list (some ids) true limit).isOk = false)
      ∧ (channels_list none false limit).isOk = false
      ∧ (channels_list (some []) false limit).isOk = false
      ∧ (ids ≠ [] → (channels_list (some ids) false limit).isOk = true)
      ∧ (channels_list none true limit).isOk = true := by
  intro ids limit
  have hne : ids ≠ [] → idsTruthy (some ids) = true := by
    intro h
    simp [idsTruthy, h]
  refine ⟨fun h => ?_, rfl, rfl, fun h => ?_, rfl⟩
  · simp [channels_list, hne h, Except.isOk, Except.toBool]
  · simp [channels_list, hne h, Except.isOk, Except.toBool]

theorem commentCore_replies {s : Json} {c : Comment}
    (h : commentCore s = .ok c) : c.replies = none := by
  unfold commentCore at h
  obtain ⟨idv, h1, h⟩ := bindOk h
  obtain ⟨sn, h2, h⟩ := bindOk h
  cases htr : sn.truthy
  · rw [htr] at h
    simp only [Bool.false_eq_true, if_false] at h
    cases h
    rfl
  · rw [htr] at h
    simp only [if_true] at h
    obtain ⟨adn, _, h⟩ := bindOk h
    obtain ⟨aci0, _, h⟩ := bindOk h
    obtain ⟨aci, _, h⟩ := bindOk h
    obtain ⟨bodyv, _, h⟩ := bindOk h
    obtain ⟨pubv, _, h⟩ := bindOk h
    obtain ⟨pubs, _, h⟩ := bindOk h
    obtain ⟨dt, _, h⟩ := bindOk h
    cases h
    rfl

/-- C6: a thread-shaped raw item with N raw replies maps to a parent
Comment whose replies list is exactly the same mapper applied to each raw
reply in order (so it has length N), and whose own fields are read from the
nested top-level comment. -/
theorem c6_thread_reply_mapping (source tlc : Json) (rl : List Json)
    (rs : List Comment) (core : Comment)
    (hthread : threadParts source = .ok (some (tlc, rl)))
    (hreplies : mkComments rl = .ok rs)
    (hcore : commentCore tlc = .ok core) :
    mkComment source = .ok { core with replies := some rs }
    ∧ rs.length = rl.length
    ∧ ∀ p ∈ rl.zip rs, mkComment p.1 = .ok p.2 := by
  refine ⟨?_, mkComments_length hreplies, mkComments_zip hreplies⟩
  rw [mkComment_thread hthread, hreplies]
  show (commentCore tlc).bind _ = _
  rw [hcore]
  rfl

/-- C9: a raw comment that is not a thread wrapper leaves the replies
attribute unassigned — not Python None and not an empty list — so reading
it raises AttributeError. -/
theorem c9_replies_left_unset (source : Json) (c : Comment)
    (hplain : threadParts source = .ok none)
    (hok : mkComment source = .ok c) :
    c.replies = none ∧ c.replies ≠ some []
    ∧ readAttr c.replies = .error "AttributeError" := by
  rw [mkComment_plain hplain] at hok
  have hr := commentCore_replies hok
  exact ⟨hr, by simp [hr], by rw [hr]; rfl⟩

theorem c4_exactly_one_scope_witness :
    (channels_list (some ["UCx"]) true none).isOk = false
    ∧ (channels_list (some ["UCx"]) false none).isOk = true := by
  have h := c4_exactly_one_scope ["UCx"] none
  exact ⟨h.1 (by decide), h.2.2.2.1 (by decide)⟩

def c6reply1 : Json := .obj [("id", .str "r1")]

def c6reply2 : Json := .obj [("id", .str "r2")]

def c6tlc : Json := .obj [("id", .str "parent")]

def c6src : Json :=
  .obj [("snippet", .obj [("topLevelComment", c6tlc)]),
        ("replies", .obj [("comments", .arr [c6reply1, c6reply2])])]

def c6core : Comment :=
  { id := .str "parent", author_display_name := none,
    author_channel_id := none, body := none, created_at := none,
    replies := none }

def c6r1c : Comment :=
  { id := .str "r1", author_display_name := none, author_channel_id := none,
    body := none, created_at := none, replies := none }

def c6r2c : Comment :=
  { id := .str "r2", author_display_name := none, author_channel_id := none,
    body := none, created_at := none, replies := none }

def c6rs : List Comment := [c6r1c, c6r2c]

theorem c6_thread_reply_mapping_witness :
    mkComment c6src = .ok { c6core with replies := some c6rs }
    ∧ c6rs.length = ([c6reply1, c6reply2] : List Json).length
    ∧ ∀ p ∈ ([c6reply1, c6reply2] : List Json).zip c6rs,
        mkComment p.1 = .ok p.2 := by
  have e1 : mkComment c6reply1 = .ok c6r1c :=
    (mkComment_plain (show threadParts c6reply1 = .ok none from rfl)).trans rfl
  have e2 : mkComment c6reply2 = .ok c6r2c :=
    (mkComment_plain (show threadParts c6reply2 = .ok none from rfl)).trans rfl
  have t2 : mkComments [c6reply2] = .ok [c6r2c] := by
    rw [mkComments_cons, e2, mkComments_nil]
    rfl
  have hreplies : mkComments [c6reply1, c6reply2] = .ok c6rs := by
    rw [mkComments_cons, e1, t2]
    rfl
  exact c6_thread_reply_mapping c6src c6tlc [c6reply1, c6reply2] c6rs c6core
    rfl hreplies rfl

def c9src : Json := .obj [("id", .str "lonely")]

def c9comment : Comment :=
  { id := .str "lonely", author_display_name := none,
    author_channel_id := none, body := none, created_at := none,
    replies := none }

theorem c9_replies_left_unset_witness :
    c9comment.replies = none ∧ c9comment.replies ≠ some []
    ∧ readAttr c9comment.replies = .error "AttributeError" :=
  c9_replies_left_unset c9src c9comment rfl
    ((mkComment_plain (show threadParts c9src = .ok none from rfl)).trans rfl)

/-- The Video fields claims C8 and C10 track: the id and the six
status-related attributes. -/
def statusAttrsEq (w v : Video) : Prop :=
  w.id = v.id ∧ w.upload_status = v.upload_status
  ∧ w.failure_reason = v.failure_reason
  ∧ w.rejection_reason = v.rejection_reason
  ∧ w.uploadStatus = v.uploadStatus
  ∧ w.failureReason = v.failureReason
  ∧ w.rejectionReason = v.rejectionReason

theorem applySnippet_untouched {v w : Video} {s : Json}
    (h : applySnippet v s = .ok w) : statusAttrsEq w v := by
  unfold applySnippet at h
  obtain ⟨sn, _, h⟩ := bindOk h
  cases htr : sn.truthy <;> rw [htr] at h <;>
    simp only [Bool.false_eq_true, if_false, if_true] at h
  · cases h
    exact ⟨rfl, rfl, rfl, rfl, rfl, rfl, rfl⟩
  · obtain ⟨d, _, h⟩ := bindOk h
    cases h
    exact ⟨rfl, rfl, rfl, rfl, rfl, rfl, rfl⟩

theorem applyContentDetails_untouched {v w : Video} {s : Json}
    (h : applyContentDetails v s = .ok w) : statusAttrsEq w v := by
  unfold applyContentDetails at h
  obtain ⟨cd, _, h⟩ := bindOk h
  cases htr : cd.truthy <;> rw [htr] at h <;>
    simp only [Bool.false_eq_true, if_false, if_true] at h
  · cases h
    exact ⟨rfl, rfl, rfl, rfl, rfl, rfl, rfl⟩
  · obtain ⟨d, _, h⟩ := bindOk h
    cases h
    exact ⟨rfl, rfl, rfl, rfl, rfl, rfl, rfl⟩

theorem applyStatistics_untouched {v w : Video} {s : Json}
    (h : applyStatistics v s = .ok w) : statusAttrsEq w v := by
  unfold applyStatistics at h
  obtain ⟨stt, _, h⟩ := bindOk h
  cases htr : stt.truthy <;> rw [htr] at h <;>
    simp only [Bool.false_eq_true, if_false, if_true] at h
  · cases h
    exact ⟨rfl, rfl, rfl, rfl, rfl, rfl, rfl⟩
  · obtain ⟨d, _, h⟩ := bindOk h
    cases h
    exact ⟨rfl, rfl, rfl, rfl, rfl, rfl, rfl⟩

theorem applyLiveStreamingDetails_untouched {v w : Video} {s : Json}
    (h : applyLiveStreamingDetails v s = .ok w) : statusAttrsEq w v := by
  unfold applyLiveStreamingDetails at h
  obtain ⟨x, _, h⟩ := bindOk h
  cases htr : x.truthy <;> rw [htr] at h <;>
    simp only [Bool.false_eq_true, if_false, if_true] at h <;>
    cases h <;> exact ⟨rfl, rfl, rfl, rfl, rfl, rfl, rfl⟩

theorem applyTopicDetails_untouched {v w : Video} {s : Json}
    (h : applyTopicDetails v s = .ok w) : statusAttrsEq w v := by
  unfold applyTopicDetails at h
  obtain ⟨x, _, h⟩ := bindOk h
  cases htr : x.truthy <;> rw [htr] at h <;>
    simp only [Bool.false_eq_true, if_false, if_true] at h
  · cases h
    exact ⟨rfl, rfl, rfl, rfl, rfl, rfl, rfl⟩
  · obtain ⟨tc, _, h⟩ := bindOk h
    cases h
    exact ⟨rfl, rfl, rfl, rfl, rfl, rfl, rfl⟩

theorem applyRecordingDetails_untouched {v w : Video} {s : Json}
    (h : applyRecordingDetails v s = .ok w) : statusAttrsEq w v := by
  unfold applyRecordingDetails at h
  obtain ⟨x, _, h⟩ := bindOk h
  cases htr : x.truthy <;> rw [htr] at h <;>
    simp only [Bool.false_eq_true, if_false, if_true] at h
  · cases h
    exact ⟨rfl, rfl, rfl, rfl, rfl, rfl, rfl⟩
  · obtain ⟨rd, _, h⟩ := bindOk h
    cases h
    exact ⟨rfl, rfl, rfl, rfl, rfl, rfl, rfl⟩

theorem applyFileDetails_untouched {v w : Video} {s : Json}
    (h : applyFileDetails v s = .ok w) : statusAttrsEq w v := by
  unfold applyFileDetails at h
  obtain ⟨x, _, h⟩ := bindOk h
  cases htr : x.truthy <;> rw [htr] at h <;>
    simp only [Bool.false_eq_true, if_false, if_true] at h
  · cases h
    exact ⟨rfl, rfl, rfl, rfl, rfl, rfl, rfl⟩
  · obtain ⟨_, _, h⟩ := bindOk h
    obtain ⟨_, _, h⟩ := bindOk h
    obtain ⟨_, _, h⟩ := bindOk h
    obtain ⟨_, _, h⟩ := bindOk h
    obtain ⟨_, _, h⟩ := bindOk h
    obtain ⟨_, _, h⟩ := bindOk h
    obtain ⟨_, _, h⟩ := bindOk h
    cases h
    exact ⟨rfl, rfl, rfl, rfl, rfl, rfl, rfl⟩

theorem applySuggestions_untouched {v w : Video} {s : Json}
    (h : applySuggestions v s = .ok w) : statusAttrsEq w v := by
  unfold applySuggestions at h
  obtain ⟨x, _, h⟩ := bindOk h
  cases htr : x.truthy <;> rw [htr] at h <;>
    simp only [Bool.false_eq_true, if_false, if_true] at h
  · cases h
    exact ⟨rfl, rfl, rfl, rfl, rfl, rfl, rfl⟩
  · obtain ⟨_, _, h⟩ := bindOk h
    obtain ⟨_, _, h⟩ := bindOk h
    obtain ⟨_, _, h⟩ := bindOk h
    obtain ⟨_, _, h⟩ := bindOk h
    obtain ⟨_, _, h⟩ := bindOk h
    cases h
    exact ⟨rfl, rfl, rfl, rfl, rfl, rfl, rfl⟩

theorem applyProcessingDetails_untouched {v w : Video} {s : Json}
    (h : applyProcessingDetails v s = .ok w) : statusAttrsEq w v := by
  unfold applyProcessingDetails at h
  obtain ⟨x, _, h⟩ := bindOk h
  cases htr : x.truthy <;> rw [htr] at h <;>
    simp only [Bool.false_eq_true, if_false, if_true] at h
  · cases h
    exact ⟨rfl, rfl, rfl, rfl, rfl, rfl, rfl⟩
  · obtain ⟨_, _, h⟩ := bindOk h
    obtain ⟨_, _, h⟩ := bindOk h
    cases h
    exact ⟨rfl, rfl, rfl, rfl, rfl, rfl, rfl⟩

theorem applyLocalizations_untouched {v w : Video} {s : Json}
    (h : applyLocalizations v s = .ok w) : statusAttrsEq w v := by
  unfold applyLocalizations at h
  obtain ⟨x, _, h⟩ := bindOk h
  cases htr : x.truthy <;> rw [htr] at h <;>
    simp only [Bool.false_eq_true, if_false, if_true] at h <;>
    cases h <;> exact ⟨rfl, rfl, rfl, rfl, rfl, rfl, rfl⟩

/-- When the status section is present and truthy, `applyStatus` stores its
values under the camel-case attributes and leaves the snake-case class
attributes alone. -/
theorem applyStatus_sets_camel {v w : Video} {s st : Json} {d : StatusData}
    (hst : s.pyGet "status" = .ok st) (htr : st.truthy = true)
    (hd : statusFields st = .ok d) (h : applyStatus v s = .ok w) :
    w.id = v.id ∧ w.upload_status = v.upload_status
    ∧ w.failure_reason = v.failure_reason
    ∧ w.rejection_reason = v.rejection_reason
    ∧ w.uploadStatus = some d.uploadStatus
    ∧ w.failureReason = some d.failureReason
    ∧ w.rejectionReason = some d.rejectionReason := by
  unfold applyStatus at h
  obtain ⟨st', hst', h⟩ := bindOk h
  rw [hst] at hst'
  injection hst' with hst'
  subst hst'
  rw [htr] at h
  simp only [if_true] at h
  obtain ⟨d', hd', h⟩ := bindOk h
  rw [hd] at hd'
  injection hd' with hd'
  subst hd'
  cases h
  exact ⟨rfl, rfl, rfl, rfl, rfl, rfl, rfl⟩

theorem statusAttrsEq_trans {a b c : Video} (h1 : statusAttrsEq a b)
    (h2 : statusAttrsEq b c) : statusAttrsEq a c := by
  obtain ⟨a1, a2, a3, a4, a5, a6, a7⟩ := h1
  obtain ⟨b1, b2, b3, b4, b5, b6, b7⟩ := h2
  exact ⟨a1.trans b1, a2.trans b2, a3.trans b3, a4.trans b4, a5.trans b5,
         a6.trans b6, a7.trans b7⟩

/-- C10: when the status section is present with uploadStatus,
failureReason and rejectionReason values, the constructed Video's public
snake-case attributes upload_status, failure_reason and rejection_reason
still hold their class-level None defaults, because the constructor stores
the parsed values under the distinct camel-case attribute names. -/
theorem c10_status_snake_defaults (source st : Json) (d : StatusData)
    (v : Video) (hst : source.pyGet "status" = .ok st)
    (htr : st.truthy = true) (hd : statusFields st = .ok d)
    (hv : mkVideo source = .ok v) :
    v.upload_status = none ∧ v.failure_reason = none
    ∧ v.rejection_reason = none
    ∧ v.uploadStatus = some d.uploadStatus
    ∧ v.failureReason = some d.failureReason
    ∧ v.rejectionReason = some d.rejectionReason := by
  unfold mkVideo at hv
  obtain ⟨idv, hid, hv⟩ := bindOk hv
  obtain ⟨v1, h1, hv⟩ := bindOk hv
  obtain ⟨v2, h2, hv⟩ := bindOk hv
  obtain ⟨v3, h3, hv⟩ := bindOk hv
  obtain ⟨v4, h4, hv⟩ := bindOk hv
  obtain ⟨v5, h5, hv⟩ := bindOk hv
  obtain ⟨v6, h6, hv⟩ := bindOk hv
  obtain ⟨v7, h7, hv⟩ := bindOk hv
  obtain ⟨v8, h8, hv⟩ := bindOk hv
  obtain ⟨v9, h9, hv⟩ := bindOk hv
  obtain ⟨v10, h10, hv⟩ := bindOk hv
  obtain ⟨v11, h11, hv⟩ := bindOk hv
  cases hv
  have pPre : statusAttrsEq v2 { id := idv } :=
    statusAttrsEq_trans (applyContentDetails_untouched h2)
      (applySnippet_untouched h1)
  have pSt := applyStatus_sets_camel hst htr hd h3
  have pPost : statusAttrsEq v v3 :=
    statusAttrsEq_trans (applyLocalizations_untouched h11)
    (statusAttrsEq_trans (applyProcessingDetails_untouched h10)
    (statusAttrsEq_trans (applySuggestions_untouched h9)
    (statusAttrsEq_trans (applyFileDetails_untouched h8)
    (statusAttrsEq_trans (applyRecordingDetails_untouched h7)
    (statusAttrsEq_trans (applyTopicDetails_untouched h6)
    (statusAttrsEq_trans (applyLiveStreamingDetails_untouched h5)
      (applyStatistics_untouched h4)))))))
  refine ⟨?_, ?_, ?_, ?_, ?_, ?_⟩
  · rw [pPost.2.1, pSt.2.1, pPre.2.1]
  · rw [pPost.2.2.1, pSt.2.2.1, pPre.2.2.1]
  · rw [pPost.2.2.2.1, pSt.2.2.2.1, pPre.2.2.2.1]
  · rw [pPost.2.2.2.2.1, pSt.2.2.2.2.1]
  · rw [pPost.2.2.2.2.2.1, pSt.2.2.2.2.2.1]
  · rw [pPost.2.2.2.2.2.2, pSt.2.2.2.2.2.2]

def c10st : Json :=
  .obj [("uploadStatus", .str "processed"), ("failureReason", .str "codec"),
        ("rejectionReason", .str "duplicate")]

def c10src : Json := .obj [("id", .str "vid1"), ("status", c10st)]

def c10d : StatusData :=
  { privacyStatus := .null, uploadStatus := .str "processed",
    failureReason := .str "codec", rejectionReason := .str "duplicate",
    license := .null, embeddable := .null, publicStatsViewable := .null,
    madeForKids := .null, selfDeclaredMadeForKids := .null }

def c10video : Video :=
  { id := .str "vid1", privacy := some .null,
    uploadStatus := some (.str "processed"),
    failureReason := some (.str "codec"),
    rejectionReason := some (.str "duplicate"), license := some .null,
    is_embeddable := some .null, has_viewable_stats := some .null,
    is_made_for_kids := some .null,
    self_declared_made_for_kids := some .null }

theorem c10_status_snake_defaults_witness :
    c10video.upload_status = none ∧ c10video.failure_reason = none
    ∧ c10video.rejection_reason = none
    ∧ c10video.uploadStatus = some c10d.uploadStatus
    ∧ c10video.failureReason = some c10d.failureReason
    ∧ c10video.rejectionReason = some c10d.rejectionReason :=
  c10_status_snake_defaults c10src c10st c10d c10video rfl rfl rfl rfl

theorem applyStatus_id {v w : Video} {s : Json}
    (h : applyStatus v s = .ok w) : w.id = v.id := by
  unfold applyStatus at h
  obtain ⟨st, _, h⟩ := bindOk h
  cases htr : st.truthy <;> rw [htr] at h <;>
    simp only [Bool.false_eq_true, if_false, if_true] at h
  · cases h
    rfl
  · obtain ⟨d, _, h⟩ := bindOk h
    cases h
    rfl

theorem mkVideo_id {source : Json} {v : Video}
    (hv : mkVideo source = .ok v) : videoIdOf source = .ok v.id := by
  unfold mkVideo at hv
  obtain ⟨idv, hid, hv⟩ := bindOk hv
  obtain ⟨v1, h1, hv⟩ := bindOk hv
  obtain ⟨v2, h2, hv⟩ := bindOk hv
  obtain ⟨v3, h3, hv⟩ := bindOk hv
  obtain ⟨v4, h4, hv⟩ := bindOk hv
  obtain ⟨v5, h5, hv⟩ := bindOk hv
  obtain ⟨v6, h6, hv⟩ := bindOk hv
  obtain ⟨v7, h7, hv⟩ := bindOk hv
  obtain ⟨v8, h8, hv⟩ := bindOk hv
  obtain ⟨v9, h9, hv⟩ := bindOk hv
  obtain ⟨v10, h10, hv⟩ := bindOk hv
  obtain ⟨v11, h11, hv⟩ := bindOk hv
  cases hv
  rw [hid]
  congr 1
  rw [(applyLocalizations_untouched h11).1,
      (applyProcessingDetails_untouched h10).1,
      (applySuggestions_untouched h9).1, (applyFileDetails_untouched h8).1,
      (applyRecordingDetails_untouched h7).1,
      (applyTopicDetails_untouched h6).1,
      (applyLiveStreamingDetails_untouched h5).1,
      (applyStatistics_untouched h4).1, applyStatus_id h3,
      (applyContentDetails_untouched h2).1, (applySnippet_untouched h1).1]

theorem chApplySnippet_id {c w : Channel} {s : Json}
    (h : chApplySnippet c s = .ok w) : w.id = c.id := by
  unfold chApplySnippet at h
  obtain ⟨sn, _, h⟩ := bindOk h
  cases htr : sn.truthy <;> rw [htr] at h <;>
    simp only [Bool.false_eq_true, if_false, if_true] at h
  · cases h
    rfl
  · obtain ⟨d, _, h⟩ := bindOk h
    cases h
    rfl

theorem chApplyContentDetails_id {c w : Channel} {s : Json}
    (h : chApplyContentDetails c s = .ok w) : w.id = c.id := by
  unfold chApplyContentDetails at h
  obtain ⟨cd, _, h⟩ := bindOk h
  cases htr : cd.truthy <;> rw [htr] at h <;>
    simp only [Bool.false_eq_true, if_false, if_true] at h
  · cases h
    rfl
  · obtain ⟨_, _, h⟩ := bindOk h
    obtain ⟨_, _, h⟩ := bindOk h
    cases h
    rfl

theorem chApplyStatistics_id {c w : Channel} {s : Json}
    (h : chApplyStatistics c s = .ok w) : w.id = c.id := by
  unfold chApplyStatistics at h
  obtain ⟨stats, _, h⟩ := bindOk h
  cases htr : stats.truthy <;> rw [htr] at h <;>
    simp only [Bool.false_eq_true, if_false, if_true] at h
  · cases h
    rfl
  · obtain ⟨_, _, h⟩ := bindOk h
    obtain ⟨_, _, h⟩ := bindOk h
    obtain ⟨_, _, h⟩ := bindOk h
    obtain ⟨_, _, h⟩ := bindOk h
    obtain ⟨_, _, h⟩ := bindOk h
    obtain ⟨_, _, h⟩ := bindOk h
    cases h
    rfl

theorem mkChannel_id {source : Json} {ch : Channel}
    (h : mkChannel source = .ok ch) : source.getItem "id" = .ok ch.id := by
  unfold mkChannel at h
  obtain ⟨idv, hid, h⟩ := bindOk h
  obtain ⟨c1, h1, h⟩ := bindOk h
  obtain ⟨c2, h2, h⟩ := bindOk h
  obtain ⟨c3, h3, h⟩ := bindOk h
  cases h
  rw [hid]
  congr 1
  rw [chApplyStatistics_id h3, chApplyContentDetails_id h2,
      chApplySnippet_id h1]

/-- C8: the id of every constructed entity is read from the raw item's id
at construction time, and Channel's in-place update — which re-fetches the
channel by its own id and bulk-overwrites the instance attributes — keeps
the id value unchanged whenever the re-fetch returns the channel that was
asked for (the remote answers an id lookup with that id). -/
theorem c8_id_construction_stable :
    (∀ (source : Json) (ch : Channel),
      mkChannel source = .ok ch → source.getItem "id" = .ok ch.id)
    ∧ (∀ (c fresh : Channel) (resp : Json), mkChannel resp = .ok fresh →
        resp.getItem "id" = .ok c.id → (Channel.update c fresh).id = c.id)
    ∧ (∀ (source : Json) (v : Video),
        mkVideo source = .ok v → videoIdOf source = .ok v.id)
    ∧ (∀ (source : Json) (c : Comment),
        commentCore source = .ok c → source.getItem "id" = .ok c.id) := by
  refine ⟨fun source ch h => mkChannel_id h, ?_, fun source v h => mkVideo_id h, ?_⟩
  · intro c fresh resp hfresh hresp
    have hid := mkChannel_id hfresh
    rw [hresp] at hid
    injection hid with hid
    show fresh.id = c.id
    exact hid.symm
  · intro source c h
    unfold commentCore at h
    obtain ⟨idv, hid, h⟩ := bindOk h
    obtain ⟨sn, _, h⟩ := bindOk h
    cases htr : sn.truthy <;> rw [htr] at h <;>
      simp only [Bool.false_eq_true, if_false, if_true] at h
    · cases h
      exact hid
    · obtain ⟨_, _, h⟩ := bindOk h
      obtain ⟨_, _, h⟩ := bindOk h
      obtain ⟨_, _, h⟩ := bindOk h
      obtain ⟨_, _, h⟩ := bindOk h
      obtain ⟨_, _, h⟩ := bindOk h
      obtain ⟨_, _, h⟩ := bindOk h
      obtain ⟨_, _, h⟩ := bindOk h
      cases h
      exact hid

def c8resp : Json := .obj [("id", .str "UC1")]

def c8fresh : Channel := { id := .str "UC1" }

def c8old : Channel :=
  { id := .str "UC1", display_name := some (.str "old name") }

def c8vidsrc : Json := .obj [("id", .str "v1")]

def c8vid : Video := { id := .str "v1" }

def c8commentsrc : Json := .obj [("id", .str "cm1")]

def c8comment : Comment :=
  { id := .str "cm1", author_display_name := none, author_channel_id := none,
    body := none, created_at := none, replies := none }

theorem c8_id_construction_stable_witness :
    c8resp.getItem "id" = .ok c8fresh.id
    ∧ (Channel.update c8old c8fresh).id = c8old.id
    ∧ videoIdOf c8vidsrc = .ok c8vid.id
    ∧ c8commentsrc.getItem "id" = .ok c8comment.id := by
  have h := c8_id_construction_stable
  exact ⟨h.1 c8resp c8fresh rfl, h.2.1 c8old c8fresh c8resp rfl rfl,
         h.2.2.1 c8vidsrc c8vid rfl, h.2.2.2 c8commentsrc c8comment rfl⟩

theorem chunksOfAux_nil {α : Type} (n : Nat) :
    ∀ fuel : Nat, chunksOfAux n fuel ([] : List α) = []
  | 0 => rfl
  | _ + 1 => rfl

theorem chunksOfAux_flatten {α : Type} {n : Nat} (hn : 0 < n) :
    ∀ (fuel : Nat) (l : List α), l.length ≤ fuel →
      (chunksOfAux n fuel l).flatten = l := by
  intro fuel
  induction fuel with
  | zero =>
    intro l hl
    rw [List.length_eq_zero.mp (Nat.le_zero.mp hl)]
    rfl
  | succ f ih =>
    intro l hl
    cases l with
    | nil => rfl
    | cons a t =>
      show (List.take n (a :: t) :: chunksOfAux n f (List.drop n (a :: t))).flatten
        = a :: t
      rw [List.flatten_cons, ih _ (by simp at hl ⊢; omega),
          List.take_append_drop]

theorem chunksOfAux_count {α : Type} {n : Nat} (hn : 0 < n) :
    ∀ (fuel : Nat) (l : List α), l.length ≤ fuel → l ≠ [] →
      (chunksOfAux n fuel l).length = (l.length + (n - 1)) / n := by
  intro fuel
  induction fuel with
  | zero =>
    intro l hl hne
    exact absurd (List.length_eq_zero.mp (Nat.le_zero.mp hl)) hne
  | succ f ih =>
    intro l hl hne
    cases l with
    | nil => exact absurd rfl hne
    | cons a t =>
      show (List.take n (a :: t) :: chunksOfAux n f (List.drop n (a :: t))).length
        = ((a :: t).length + (n - 1)) / n
      by_cases hsmall : (a :: t).length ≤ n
      · have hdrop : List.drop n (a :: t) = [] := by
          rw [List.drop_eq_nil_iff]
          exact hsmall
        rw [hdrop, chunksOfAux_nil]
        have h1 : (a :: t).length + (n - 1) = ((a :: t).length - 1) + n := by
          simp
          omega
        rw [h1, Nat.add_div_right _ hn, Nat.div_eq_of_lt (by simp at hsmall ⊢; omega)]
        rfl
      · have hlen : n < (a :: t).length := Nat.lt_of_not_le hsmall
        have hdne : List.drop n (a :: t) ≠ [] := by
          rw [Ne, List.drop_eq_nil_iff]
          omega
        have hdl : (List.drop n (a :: t)).length ≤ f := by
          rw [List.length_drop]
          simp at hl ⊢
          omega
        have := ih (List.drop n (a :: t)) hdl hdne
        rw [List.length_drop] at this
        show (chunksOfAux n f (List.drop n (a :: t))).length + 1 = _
        rw [this]
        have h2 : (a :: t).length + (n - 1) = ((a :: t).length - n + (n - 1)) + n := by
          omega
        rw [h2, Nat.add_div_right _ hn]

theorem chunksOf50_flatten {α : Type} (l : List α) :
    (chunksOf50 l).flatten = l :=
  chunksOfAux_flatten (by omega) l.length l le_rfl

theorem chunksOf50_count {α : Type} (l : List α) (h : l ≠ []) :
    (chunksOf50 l).length = (l.length + 49) / 50 :=
  chunksOfAux_count (by omega) l.length l le_rfl h

theorem sum_map_one {α : Type} (l : List α) :
    (l.map fun _ => (1 : Nat)).sum = l.length := by
  induction l with
  | nil => rfl
  | cons a t ih =>
    simp [ih]
    omega

/-- 52 video ids: 51 distinct plus one repeat of the first. -/
def c3ids : List String :=
  (List.range 51).map (fun n => "v" ++ toString n) ++ ["v0"]

/-- C3 counterexample: the video lookup issues exactly one request whose id
parameter joins the whole 52-element input (duplicate included, 52 > 50 ids
in one request), not the ceil(51 / 50) = 2 deduplicated 50-id chunks the
claim requires. -/
theorem c3_counterexample_videos_no_chunking :
    c3ids.length = 52 ∧ ¬ c3ids.Nodup ∧ uniqueCount c3ids = 51
    ∧ videosCalls c3ids = [joinComma c3ids]
    ∧ (videosCalls c3ids).length = 1
    ∧ (uniqueCount c3ids + 49) / 50 = 2
    ∧ (videosCalls c3ids).length ≠ (uniqueCount c3ids + 49) / 50 := by
  refine ⟨by decide, by decide, by decide, rfl, rfl, by decide, by decide⟩

/-- C3 (amended): the channel batch lookup deduplicates its id list, chunks
it into at most 50 ids, and issues one request per chunk — so with every id
resolving it makes exactly ceil(unique/50) requests and yields exactly the
deduplicated ids' entities, each once; the video lookup, by contrast,
performs no deduplication or chunking and issues a single request joining
the full input list. -/
theorem c3_amended_channel_dedup_chunking :
    (∀ (ids : List String) (resolve : String → Json)
       (chunkPages : List String → List (List Json)) (q : ChannelsQuery),
      (∀ c, chunkPages c = [c.map resolve]) → ids ≠ [] →
      channels ids = .ok q →
      planRequests q chunkPages [] = (uniqueCount ids + 49) / 50
      ∧ planItems q chunkPages [] = (pyDedup ids).map resolve
      ∧ (planItems q chunkPages []).length = uniqueCount ids
      ∧ (Function.Injective resolve → (planItems q chunkPages []).Nodup))
    ∧ (∀ vids : List String, videosCalls vids = [joinComma vids]) := by
  refine ⟨?_, fun vids => rfl⟩
  intro ids resolve chunkPages q hall hne hq
  have hnetr : idsTruthy (some ids) = true := by simp [idsTruthy, hne]
  unfold channels channels_list at hq
  rw [hnetr] at hq
  simp only [Bool.false_eq_true, if_false, if_true, reduceIte] at hq
  injection hq with hq
  subst hq
  simp only [Option.getD_some]
  have hded : pyDedup ids ≠ [] := by
    rw [pyDedup, Ne, List.dedup_eq_nil]
    exact hne
  have hitems : planItems (.byIds (chunksOf50 (pyDedup ids)) none) chunkPages []
      = (pyDedup ids).map resolve := by
    show ((chunksOf50 (pyDedup ids)).map fun c =>
      paginated (chunkPages c) none).flatten = _
    have hc : ∀ c, paginated (chunkPages c) none = c.map resolve := by
      intro c
      rw [hall c]
      show (([c.map resolve] : List (List Json)).flatten) = _
      simp
    calc ((chunksOf50 (pyDedup ids)).map fun c =>
            paginated (chunkPages c) none).flatten
        = ((chunksOf50 (pyDedup ids)).map fun c => c.map resolve).flatten := by
          simp only [hc]
      _ = ((chunksOf50 (pyDedup ids)).flatten).map resolve := by
          rw [List.map_flatten]
      _ = (pyDedup ids).map resolve := by rw [chunksOf50_flatten]
  refine ⟨?_, hitems, ?_, ?_⟩
  · show ((chunksOf50 (pyDedup ids)).map fun c =>
      paginatedRequests (chunkPages c) none).sum = _
    have hr : ∀ c, paginatedRequests (chunkPages c) none = 1 := by
      intro c
      rw [hall c]
      rfl
    calc ((chunksOf50 (pyDedup ids)).map fun c =>
            paginatedRequests (chunkPages c) none).sum
        = ((chunksOf50 (pyDedup ids)).map fun _ => (1 : Nat)).sum := by
          simp only [hr]
      _ = (chunksOf50 (pyDedup ids)).length := sum_map_one _
      _ = ((pyDedup ids).length + 49) / 50 := chunksOf50_count _ hded
      _ = (uniqueCount ids + 49) / 50 := rfl
  · rw [hitems, List.length_map]
    rfl
  · intro hinj
    rw [hitems]
    exact (List.nodup_dedup ids).map hinj

def c3wPages : List String → List (List Json) := fun c => [c.map Json.str]

def c3wq : ChannelsQuery :=
  .byIds (chunksOf50 (pyDedup ["a", "b", "a"])) none

theorem c3_amended_channel_dedup_chunking_witness :
    channels ["a", "b", "a"] = .ok c3wq
    ∧ planRequests c3wq c3wPages [] = (uniqueCount ["a", "b", "a"] + 49) / 50
    ∧ planItems c3wq c3wPages [] = (pyDedup ["a", "b", "a"]).map Json.str
    ∧ (planItems c3wq c3wPages []).length = uniqueCount ["a", "b", "a"]
    ∧ (planItems c3wq c3wPages []).Nodup
    ∧ videosCalls ["a", "b"] = [joinComma ["a", "b"]] := by
  have h := c3_amended_channel_dedup_chunking
  have hmain := h.1 ["a", "b", "a"] Json.str c3wPages c3wq (fun c => rfl)
    (by decide) rfl
  exact ⟨rfl, hmain.1, hmain.2.1, hmain.2.2.1,
         hmain.2.2.2 (fun a b hh => by injection hh), h.2 ["a", "b"]⟩

/-- C1 (amended): every query issued as a single pagination — video search,
comment threads, playlist videos and the mine-scope channels list — yields
at most its limit L and exactly min(L, total available) once the remote
pages are exhausted, and each query builder hands the caller's limit to the
paginator unchanged; the id-chunked channels list, however, passes the same
limit to every 50-id chunk's pagination separately, so its total yield is
the sum of the per-chunk capped yields, which can exceed L. -/
theorem c1_amended_pagination_cap :
    (∀ (q : PaginatedQuery) (pages : List (List Json)) (L : Nat),
      q.limit = some L →
      (runQuery q pages).length ≤ L
      ∧ (pages.flatten.length ≤ L →
          (runQuery q pages).length = min L pages.flatten.length))
    ∧ (∀ query channel_id after before mine order safeSearch parts limit,
        (search_videos query channel_id after before mine order safeSearch
          parts limit).limit = limit)
    ∧ (∀ (video_id : String) query parts order limit,
        (comments video_id query parts order limit).limit = limit)
    ∧ (∀ (playlist_id : String) parts limit,
        (get_playlist_videos playlist_id parts limit).limit = limit)
    ∧ (∀ limit, channels_list none true limit = .ok (.mineQ limit))
    ∧ (∀ (chunks : List (List String))
         (chunkPages : List String → List (List Json)) (lim : Option Nat),
        planItems (.byIds chunks lim) chunkPages [] =
          (chunks.map fun c => paginated (chunkPages c) lim).flatten) := by
  refine ⟨?_, fun _ _ _ _ _ _ _ _ _ => rfl, fun _ _ _ _ _ => rfl,
          fun _ _ _ => rfl, fun _ => rfl, fun _ _ _ => rfl⟩
  intro q pages L hL
  have hrun : runQuery q pages = pages.flatten.take L := by
    rw [runQuery, hL]
    rfl
  rw [hrun, List.length_take]
  exact ⟨min_le_left _ _, fun _ => rfl⟩

def c1ids : List String := (List.range 51).map (fun n => "c" ++ toString n)

def c1chunkPages : List String → List (List Json) := fun c => [c.map Json.str]

/-- C1 counterexample: a channels list query for 51 distinct ids with item
limit 50 is chunked into a 50-id chunk and a 1-id chunk, each paginated
with the full limit of 50, so 51 entities are yielded — more than the
limit. -/
theorem c1_counterexample_chunked_limit_overflow :
    channels_list (some c1ids) false (some 50)
      = .ok (.byIds (chunksOf50 (pyDedup c1ids)) (some 50))
    ∧ (planItems (.byIds (chunksOf50 (pyDedup c1ids)) (some 50))
        c1chunkPages []).length = 51
    ∧ ¬ (51 ≤ 50) := by
  refine ⟨rfl, by decide, by decide⟩

def c1wq : PaginatedQuery :=
  comments "vid" none [.SNIPPET, .REPLIES] .TIME (some 3)

def c1wpages : List (List Json) := [[.str "cm1", .str "cm2"]]

theorem c1_amended_pagination_cap_witness :
    (runQuery c1wq c1wpages).length ≤ 3
    ∧ (runQuery c1wq c1wpages).length = min 3 c1wpages.flatten.length := by
  have h := c1_amended_pagination_cap.1 c1wq c1wpages 3 rfl
  exact ⟨h.1, h.2 (by decide)⟩
